import Mathlib

/-!
# Verification of the crypto-analytics ingestion pipeline

Shallow embedding of `src/ingestion/fetch_crypto_data.py` (class
`CryptoDataFetcher`): the rate-limited API client `_make_api_request` /
`fetch_market_data`, the record normalizer `process_market_data`, the
artifact writer `save_to_csv`, the orchestrator `fetch_and_save_data`,
and the entry point `main`.

Modelling conventions:
* Python values carried by the upstream JSON records are an inductive
  `Value` (string / integer / boolean / null); the normalizer copies them
  without inspecting them, so the exact carrier does not matter.
* A raw API record is either a mapping (association list of field names to
  values, `dict.get` embedded as `dictGet`) or a non-mapping object, which
  has no `.get` attribute and makes attribute access raise.
* `datetime.now()` is modelled by a clock stream `clock : Nat → Nat`
  handed to the functions that read the wall clock: the i-th clock read of
  a run returns `clock i`.  Timestamps are abstract ticks, not ISO strings;
  only their identity/ordering matters to the claims.
* Raisable Python code is embedded in `Except PyExc`; a `try/except`
  becomes a `match` on the `Except` value.
* Filesystem effects of the writer are recorded as a list of `FsOp`
  operations, and I/O outcomes (`os.makedirs` / `DataFrame.to_csv`
  failing or succeeding) are an input `WriteBehavior`.
* Network behaviour of `requests.get` is an input `GetResult`: either a
  raised `requests.exceptions.RequestException` (transport failure or
  timeout) or a response with an HTTP status code and a body that either
  decodes as JSON (for this endpoint: an array of records) or raises
  `ValueError` in `response.json()`.
-/

set_option autoImplicit false

namespace CryptoFetch

/-- A Python/JSON scalar value as carried by one field of an upstream
record.  The normalizer never inspects values, it only copies them. -/
inductive Value where
  | str (s : String)
  | int (n : Int)
  | bool (b : Bool)
  | null
  deriving DecidableEq, Repr

/-- A Python exception, to the granularity the embedded code distinguishes. -/
inductive PyExc where
  /-- `AttributeError`: attribute access on an object lacking it
  (e.g. `.get` on a non-mapping). -/
  | attributeError
  /-- `FileNotFoundError` raised by `_load_config`. -/
  | fileNotFound
  /-- `ValueError` raised by `_load_config` on a YAML parse error. -/
  | valueError
  /-- `OSError` and friends from filesystem operations. -/
  | ioError
  /-- Any other exception. -/
  | other
  deriving DecidableEq, Repr

/-- One record of the upstream JSON array: either a JSON object
(association list of field name to value) or some non-mapping value,
which in Python has no `.get` method. -/
inductive RawRecord where
  | mapping (fields : List (String × Value))
  | nonMapping
  deriving DecidableEq, Repr

/-- Python `dict.get(key)`: the first value stored under `key`, or `None`
when the key is absent. -/
def dictGet (fields : List (String × Value)) (key : String) : Value :=
  match fields.find? (fun p => p.1 == key) with
  | some p => p.2
  | none => Value.null

/-- One row of the normalized DataFrame: the dict literal built at lines
97–114 of `process_market_data`.  `timestamp` is the clock tick of the
`datetime.now()` call that produced the row; the other fifteen fields are
copied from the raw record by `dict.get`. -/
structure NormalizedRow where
  timestamp : Nat
  coin_id : Value
  symbol : Value
  name : Value
  current_price : Value
  market_cap : Value
  market_cap_rank : Value
  total_volume : Value
  price_change_24h : Value
  price_change_percentage_24h : Value
  market_cap_change_24h : Value
  market_cap_change_percentage_24h : Value
  circulating_supply : Value
  total_supply : Value
  max_supply : Value
  last_updated : Value
  deriving DecidableEq, Repr

/-- The body of the `try` at lines 96–115 for one mapping record `fields`,
with `ts` the value of the `datetime.now()` call of this iteration: builds
the processed dict.  `dict.get` never raises, so this never raises. -/
def processOne (ts : Nat) (fields : List (String × Value)) : NormalizedRow :=
  { timestamp := ts
  , coin_id := dictGet fields "id"
  , symbol := dictGet fields "symbol"
  , name := dictGet fields "name"
  , current_price := dictGet fields "current_price"
  , market_cap := dictGet fields "market_cap"
  , market_cap_rank := dictGet fields "market_cap_rank"
  , total_volume := dictGet fields "total_volume"
  , price_change_24h := dictGet fields "price_change_24h"
  , price_change_percentage_24h := dictGet fields "price_change_percentage_24h"
  , market_cap_change_24h := dictGet fields "market_cap_change_24h"
  , market_cap_change_percentage_24h := dictGet fields "market_cap_change_percentage_24h"
  , circulating_supply := dictGet fields "circulating_supply"
  , total_supply := dictGet fields "total_supply"
  , max_supply := dictGet fields "max_supply"
  , last_updated := dictGet fields "last_updated" }

/-- The loop of `process_market_data` (lines 95–119), with `i` the index of
the next `datetime.now()` call.  Per iteration the dict literal first
evaluates `datetime.now().isoformat()`, then the fifteen `coin.get(...)`
calls.  For a mapping, the row is appended.  For a non-mapping, the first
`coin.get` raises `AttributeError`; the handler at line 118 then evaluates
`coin.get('id', 'unknown')` for its log message, which raises
`AttributeError` again inside the `except` block, and that second
exception escapes `process_market_data` uncaught. -/
def processLoop (clock : Nat → Nat) :
    Nat → List RawRecord → List NormalizedRow → Except PyExc (List NormalizedRow)
  | _, [], acc => Except.ok acc.reverse
  | i, RawRecord.mapping fields :: rest, acc =>
      processLoop clock (i + 1) rest (processOne (clock i) fields :: acc)
  | _, RawRecord.nonMapping :: _, _ => Except.error PyExc.attributeError

/-- `process_market_data` (lines 87–123): returns the empty DataFrame for
a falsy input (line 89), otherwise runs the per-record loop.  The result
is the list of rows of the DataFrame built at line 121, or the Python
exception that escapes the function. -/
def process_market_data (clock : Nat → Nat) (raw_data : List RawRecord) :
    Except PyExc (List NormalizedRow) :=
  if raw_data.isEmpty then Except.ok []
  else processLoop clock 0 raw_data []

/-- The body of an HTTP response as far as `response.json()` is concerned:
it either decodes (for the market-data endpoint, to a JSON array of
records) or raises `ValueError`. -/
inductive Body where
  | json (records : List RawRecord)
  | undecodable
  deriving DecidableEq, Repr

/-- An HTTP response: status code plus body. -/
structure Response where
  status : Nat
  body : Body
  deriving DecidableEq, Repr

/-- The outcome of the one `requests.get` call: either a raised
`requests.exceptions.RequestException` (connection failure, timeout, …)
or a received response. -/
inductive GetResult where
  | exc
  | resp (r : Response)
  deriving DecidableEq, Repr

/-- `response.raise_for_status()` raises `requests.exceptions.HTTPError`
exactly for 4xx and 5xx status codes. -/
def raiseForStatusRaises (status : Nat) : Bool :=
  400 ≤ status && status < 600

/-- `_make_api_request` (lines 47–66), as a function of the outcome of the
underlying `requests.get` call.  Returns the value the Python function
returns (`response.json()` on success, `None` on any caught failure)
paired with whether the `time.sleep(60 / rate_limit_per_minute)` at
line 57 executed before returning.

Control flow of the source: `requests.get` raising, or
`raise_for_status()` raising, jumps to the `RequestException` handler
before the sleep is reached; only then does the sleep run, after which
`response.json()` may still raise `ValueError` (handled at line 64). -/
def _make_api_request (outcome : GetResult) : Option (List RawRecord) × Bool :=
  match outcome with
  | GetResult.exc => (none, false)
  | GetResult.resp r =>
      if raiseForStatusRaises r.status then (none, false)
      else
        match r.body with
        | Body.json records => (some records, true)
        | Body.undecodable => (none, true)

/-- `fetch_market_data` (lines 68–85): builds the query parameters and
delegates to `_make_api_request`; its return value is exactly the
client's. -/
def fetch_market_data (outcome : GetResult) : Option (List RawRecord) × Bool :=
  _make_api_request outcome

/-- A successful filesystem side effect of the writer. -/
inductive FsOp where
  /-- `os.makedirs(path, exist_ok=True)` completed. -/
  | makedirs (path : String)
  /-- `df.to_csv(path, index=False)` completed. -/
  | writeFile (path : String)
  deriving DecidableEq, Repr

/-- The I/O outcome of a `save_to_csv` attempt: both filesystem calls
succeed, or `os.makedirs` raises, or `df.to_csv` raises. -/
inductive WriteBehavior where
  | ok
  | makedirsFails
  | toCsvFails
  deriving DecidableEq, Repr

/-- `save_to_csv` (lines 125–147), as a function of the DataFrame's rows,
of the `datetime.now().strftime("%Y%m%d_%H%M%S")` string `ts` of this
call, and of the I/O outcome.  Returns the string the Python function
returns (the filepath, or `""` on empty input and on any caught I/O
failure) paired with the list of filesystem operations that completed. -/
def save_to_csv (df : List NormalizedRow) (ts : String) (w : WriteBehavior) :
    String × List FsOp :=
  if df.isEmpty then ("", [])
  else
    let filepath := "data/raw/crypto_market_data_" ++ ts ++ ".csv"
    match w with
    | WriteBehavior.makedirsFails => ("", [])
    | WriteBehavior.toCsvFails => ("", [FsOp.makedirs "data/raw"])
    | WriteBehavior.ok =>
        (filepath, [FsOp.makedirs "data/raw", FsOp.writeFile filepath])

/-- The stage at which the orchestrator logs a run failure:
`fetch` = "Failed to fetch market data" (line 157),
`normalize` = "No data was processed" (line 163),
`persist` = "Failed to save data" (line 169),
`unexpected` = "Unexpected error in fetch_and_save_data" (line 176). -/
inductive FailStage where
  | fetch
  | normalize
  | persist
  | unexpected
  deriving DecidableEq, Repr

/-- The environment of one run of `fetch_and_save_data`: the outcome of
the HTTP call, the wall clock read by `process_market_data`, the
timestamp string used in the artifact filename, and the I/O outcome of
the write. -/
structure RunBehavior where
  get : GetResult
  clock : Nat → Nat
  saveTs : String
  write : WriteBehavior

/-- What one run of `fetch_and_save_data` produced: the returned boolean,
the failure stage logged (if any), and the filesystem operations that
completed. -/
structure RunResult where
  success : Bool
  failedAt : Option FailStage
  fsOps : List FsOp
  deriving DecidableEq, Repr

/-- The `try` block of `fetch_and_save_data` (lines 151–173): fetch, the
falsy check on the raw data (which catches both `None` and the empty
list), normalize (whose exceptions propagate into this `try`), the
empty-DataFrame check, and the save.  An `Except.error` is an exception
reaching the `except` at line 175. -/
def fetch_and_save_body (b : RunBehavior) : Except PyExc RunResult :=
  match (fetch_market_data b.get).1 with
  | none => Except.ok ⟨false, some FailStage.fetch, []⟩
  | some raw_data =>
      if raw_data.isEmpty then Except.ok ⟨false, some FailStage.fetch, []⟩
      else
        match process_market_data b.clock raw_data with
        | Except.error e => Except.error e
        | Except.ok df =>
            if df.isEmpty then Except.ok ⟨false, some FailStage.normalize, []⟩
            else
              let res := save_to_csv df b.saveTs b.write
              if res.1 = "" then Except.ok ⟨false, some FailStage.persist, res.2⟩
              else Except.ok ⟨true, none, res.2⟩

/-- `fetch_and_save_data` (lines 149–177): the `try` body with the
catch-all `except Exception` (lines 175–177), which converts any escaped
exception into a logged failure and the return value `False`.  No
filesystem operation can have completed before an exception escapes the
body, since the only raising stage (normalize) precedes the save. -/
def fetch_and_save_data (b : RunBehavior) : RunResult :=
  match fetch_and_save_body b with
  | Except.ok r => r
  | Except.error _ => ⟨false, some FailStage.unexpected, []⟩

/-- The outcome of constructing `CryptoDataFetcher()` at line 183:
either it succeeds and the run behaves as `b`, or initialization
(config loading, YAML parsing, logging setup) raises `e`. -/
inductive InitOutcome where
  | ok (b : RunBehavior)
  | fails (e : PyExc)

/-- The `try` block of `main` (lines 182–189): construct the fetcher and
run the pipeline, then print one of the two status lines.
`fetch_and_save_data` never raises, so the only exceptions reaching
`main`'s handler come from initialization. -/
def main_body (i : InitOutcome) : Except PyExc String :=
  match i with
  | InitOutcome.ok b =>
      if (fetch_and_save_data b).success then
        Except.ok "Crypto data fetch completed successfully!"
      else
        Except.ok "Crypto data fetch failed. Check logs for details."
  | InitOutcome.fails e => Except.error e

/-- `main` (lines 180–192) plus the `if __name__` guard (lines 195–196):
returns the line printed to stdout and the process exit status.  The
handler at line 191 prints a diagnostic instead of re-raising; `main`
never calls `sys.exit`, so the interpreter exits with status 0 whenever
`main` returns. -/
def main (i : InitOutcome) : String × Nat :=
  match main_body i with
  | Except.ok msg => (msg, 0)
  | Except.error _ => ("Error initializing crypto data fetcher", 0)

/-! ### Reference descriptions and concrete test vectors -/

/-- Reference description of the rows produced by the normalizer's loop on
a list of mapping records, starting at clock index `i`: one row per
record, in input order, the k-th row built from the (i+k)-th clock read. -/
def processedRows (clock : Nat → Nat) (i : Nat) :
    List (List (String × Value)) → List NormalizedRow
  | [] => []
  | fields :: rest => processOne (clock i) fields :: processedRows clock (i + 1) rest

/-- A wall clock that advances by one tick per `datetime.now()` read. -/
def idClock : Nat → Nat := fun i => i

/-- A well-formed record for the coin `bitcoin`. -/
def coinBtc : List (String × Value) :=
  [("id", Value.str "bitcoin"), ("symbol", Value.str "btc"),
   ("current_price", Value.int 97000)]

/-- A well-formed record for the coin `ethereum`. -/
def coinEth : List (String × Value) :=
  [("id", Value.str "ethereum"), ("symbol", Value.str "eth"),
   ("current_price", Value.int 3500)]

/-- A record whose `current_price` field holds a value of the wrong type
(a string where a number is expected). -/
def coinWrongTyped : List (String × Value) :=
  [("id", Value.str "bitcoin"), ("current_price", Value.str "not-a-number")]

/-! ### Helper lemmas -/

theorem processLoop_mappings (clock : Nat → Nat) (fss : List (List (String × Value))) :
    ∀ (i : Nat) (acc : List NormalizedRow),
      processLoop clock i (fss.map RawRecord.mapping) acc
        = Except.ok (acc.reverse ++ processedRows clock i fss) := by
  induction fss with
  | nil => intro i acc; simp [processLoop, processedRows]
  | cons fs rest ih =>
      intro i acc
      simp only [List.map_cons, processLoop, processedRows]
      rw [ih (i + 1) (processOne (clock i) fs :: acc)]
      simp [List.reverse_cons, List.append_assoc]

theorem processedRows_length (clock : Nat → Nat) :
    ∀ (fss : List (List (String × Value))) (i : Nat),
      (processedRows clock i fss).length = fss.length := by
  intro fss
  induction fss with
  | nil => intro i; rfl
  | cons fs rest ih => intro i; simp [processedRows, ih (i + 1)]

theorem processedRows_timestamps (clock : Nat → Nat) :
    ∀ (fss : List (List (String × Value))) (i : Nat),
      (processedRows clock i fss).map NormalizedRow.timestamp
        = (List.range fss.length).map (fun k => clock (i + k)) := by
  intro fss
  induction fss with
  | nil => intro i; rfl
  | cons fs rest ih =>
      intro i
      simp only [processedRows, List.map_cons, List.length_cons,
        List.range_succ_eq_map, List.map_map]
      refine congrArg₂ List.cons rfl ?_
      rw [ih (i + 1)]
      exact List.map_congr_left fun k _ => congrArg clock (by omega)

theorem processLoop_ok_all_mappings (clock : Nat → Nat) :
    ∀ (l : List RawRecord) (i : Nat) (acc rows : List NormalizedRow),
      processLoop clock i l acc = Except.ok rows →
      ∃ fss : List (List (String × Value)), l = fss.map RawRecord.mapping := by
  intro l
  induction l with
  | nil => intro i acc rows _; exact ⟨[], rfl⟩
  | cons r rest ih =>
      intro i acc rows h
      cases r with
      | mapping fs =>
          simp only [processLoop] at h
          obtain ⟨fss, hfss⟩ := ih (i + 1) _ rows h
          exact ⟨fs :: fss, by simp [hfss]⟩
      | nonMapping => simp [processLoop] at h

theorem save_to_csv_notOk (df : List NormalizedRow) (ts : String) (w : WriteBehavior)
    (hw : w ≠ WriteBehavior.ok) : (save_to_csv df ts w).1 = "" := by
  cases w with
  | ok => exact absurd rfl hw
  | makedirsFails => cases h : df.isEmpty <;> simp [save_to_csv, h]
  | toCsvFails => cases h : df.isEmpty <;> simp [save_to_csv, h]

theorem dictGet_not_mem (fields : List (String × Value)) (key : String)
    (h : key ∉ fields.map Prod.fst) : dictGet fields key = Value.null := by
  unfold dictGet
  rw [List.find?_eq_none.mpr]
  intro p hp
  simp only [beq_iff_eq]
  intro hk
  exact h (List.mem_map.mpr ⟨p, hp, hk⟩)

/-! ### Claims -/

/-- C1, counterexample: on a two-record input with a wall clock that
advanced between the two per-record `datetime.now()` calls (line 98 runs
once per loop iteration, not once per run), `process_market_data`
produces rows whose `timestamp` values differ, refuting "every row …
carries one and the same `timestamp` value, taken once at normalization
start". -/
theorem process_market_data_timestamps_differ :
    process_market_data idClock [RawRecord.mapping coinBtc, RawRecord.mapping coinEth]
      = Except.ok [processOne 0 coinBtc, processOne 1 coinEth]
    ∧ (processOne 0 coinBtc).timestamp ≠ (processOne 1 coinEth).timestamp :=
  ⟨rfl, by decide⟩

/-- C1 (amended): `process_market_data` reads the wall clock once per
record, not once per run: when it returns rows, the k-th row's
`timestamp` is the k-th clock reading of the loop, so rows share a single
value only if the clock did not advance during the run. -/
theorem process_market_data_timestamp_per_row (clock : Nat → Nat)
    (raw : List RawRecord) (rows : List NormalizedRow)
    (h : process_market_data clock raw = Except.ok rows) :
    rows.map NormalizedRow.timestamp = (List.range raw.length).map clock := by
  cases raw with
  | nil =>
      have h2 : Except.ok ([] : List NormalizedRow) = Except.ok rows := h
      cases h2
      rfl
  | cons r rest =>
      have h2 : processLoop clock 0 (r :: rest) [] = Except.ok rows := h
      obtain ⟨fss, hfss⟩ := processLoop_ok_all_mappings clock (r :: rest) 0 [] rows h2
      rw [hfss] at h2 ⊢
      rw [processLoop_mappings] at h2
      simp only [List.reverse_nil, List.nil_append, Except.ok.injEq] at h2
      subst h2
      rw [processedRows_timestamps, List.length_map]
      exact List.map_congr_left fun k _ => congrArg clock (Nat.zero_add k)

/-- C1, witness for the amended theorem at the two-record input. -/
theorem process_market_data_timestamp_per_row_witness :
    List.map NormalizedRow.timestamp [processOne 0 coinBtc, processOne 1 coinEth]
      = (List.range 2).map idClock :=
  process_market_data_timestamp_per_row idClock
    [RawRecord.mapping coinBtc, RawRecord.mapping coinEth]
    [processOne 0 coinBtc, processOne 1 coinEth] rfl

/-- C2: a non-mapping record does not get skipped: the `AttributeError`
raised by `coin.get('id')` is caught by the handler at line 117, but the
handler's own log message re-evaluates `coin.get('id', 'unknown')`
(line 118), which raises `AttributeError` again, and that exception
escapes `process_market_data`: no row is produced, not even for the
well-formed record that follows. -/
theorem process_market_data_aborts_on_non_mapping :
    process_market_data idClock [RawRecord.nonMapping, RawRecord.mapping coinBtc]
      = Except.error PyExc.attributeError := rfl

/-- C3, counterexample: when fetch returns a decoded empty array, the
falsy test `if not raw_data` at line 156 fires and the run is reported
failed at the fetch stage ("Failed to fetch market data", line 157) —
not at the normalize stage as claimed. -/
theorem empty_array_reported_at_fetch_stage :
    fetch_and_save_data ⟨GetResult.resp ⟨200, Body.json []⟩, idClock,
        "20260101_000000", WriteBehavior.ok⟩
      = ⟨false, some FailStage.fetch, []⟩
    ∧ FailStage.fetch ≠ FailStage.normalize :=
  ⟨rfl, by decide⟩

/-- C3 (amended): when the fetch stage returns a successfully decoded but
empty array, the orchestrator reports the failure at the fetch stage
(the falsy check on the raw data conflates `None` with the empty list),
and no artifact file is created. -/
theorem empty_fetch_result_fails_at_fetch (r : Response)
    (hs : raiseForStatusRaises r.status = false) (hb : r.body = Body.json [])
    (clock : Nat → Nat) (ts : String) (w : WriteBehavior) :
    fetch_and_save_data ⟨GetResult.resp r, clock, ts, w⟩
      = ⟨false, some FailStage.fetch, []⟩ := by
  unfold fetch_and_save_data fetch_and_save_body fetch_market_data _make_api_request
  simp [hs, hb]

/-- C3, witness for the amended theorem at a 200-status empty-array
response. -/
theorem empty_fetch_result_fails_at_fetch_witness :
    fetch_and_save_data ⟨GetResult.resp ⟨200, Body.json []⟩, idClock,
        "20260101_000000", WriteBehavior.makedirsFails⟩
      = ⟨false, some FailStage.fetch, []⟩ :=
  empty_fetch_result_fails_at_fetch ⟨200, Body.json []⟩ (by decide) rfl
    idClock "20260101_000000" WriteBehavior.makedirsFails

/-- C4, counterexample: on a transport-level failure the exception raised
by `requests.get` jumps to the handler at line 61 before the
`time.sleep` at line 57 is reached, so the client returns without
sleeping, refuting "never returns control without first sleeping". -/
theorem no_sleep_on_transport_error :
    (_make_api_request GetResult.exc).2 = false := rfl

/-- C4 (amended): the client sleeps before returning exactly when the
HTTP call produced a response whose status passed `raise_for_status`
(outside 400–599); on a transport failure or an error status it returns
without sleeping, while a decode failure still sleeps because
`response.json()` runs after the sleep. -/
theorem sleep_iff_raise_for_status_passes (o : GetResult) :
    (_make_api_request o).2 = true
      ↔ ∃ r : Response, o = GetResult.resp r ∧ raiseForStatusRaises r.status = false := by
  cases o with
  | exc =>
      constructor
      · intro h; cases h
      · rintro ⟨r, hr, -⟩; cases hr
  | resp r =>
      cases hs : raiseForStatusRaises r.status with
      | true =>
          constructor
          · intro h
            simp [_make_api_request, hs] at h
          · rintro ⟨r', hr', h'⟩
            cases hr'
            rw [hs] at h'
            cases h'
      | false =>
          constructor
          · intro _; exact ⟨r, rfl, hs⟩
          · intro _
            cases hb : r.body <;> simp [_make_api_request, hs, hb]

/-- C5, counterexample: a transport failure, an HTTP 500 status, and an
undecodable body all make `_make_api_request` return the very same value
`None`; the three failure classes are not distinguishable from the
result. -/
theorem failure_results_identical :
    (_make_api_request GetResult.exc).1
        = (_make_api_request (GetResult.resp ⟨500, Body.json []⟩)).1
    ∧ (_make_api_request (GetResult.resp ⟨500, Body.json []⟩)).1
        = (_make_api_request (GetResult.resp ⟨200, Body.undecodable⟩)).1
    ∧ (_make_api_request GetResult.exc).1 = none :=
  ⟨rfl, rfl, rfl⟩

/-- C5 (amended): all three failure classes — transport failure, error
HTTP status, undecodable body — collapse to the single sentinel return
value `None` (they are told apart only in the log), while a decoded
response with a passing status returns the decoded records. -/
theorem make_api_request_failures_collapse :
    (_make_api_request GetResult.exc).1 = none
    ∧ (∀ r : Response, raiseForStatusRaises r.status = true →
        (_make_api_request (GetResult.resp r)).1 = none)
    ∧ (∀ r : Response, r.body = Body.undecodable →
        (_make_api_request (GetResult.resp r)).1 = none)
    ∧ (∀ (r : Response) (records : List RawRecord),
        raiseForStatusRaises r.status = false → r.body = Body.json records →
        (_make_api_request (GetResult.resp r)).1 = some records) := by
  refine ⟨rfl, ?_, ?_, ?_⟩
  · intro r hr
    simp [_make_api_request, hr]
  · intro r hb
    cases hs : raiseForStatusRaises r.status <;> simp [_make_api_request, hs, hb]
  · intro r records hs hb
    simp [_make_api_request, hs, hb]

/-- C5, witness for the amended theorem at a 500 status, an undecodable
404 body, and a decoded 200 response. -/
theorem make_api_request_failures_collapse_witness :
    (_make_api_request (GetResult.resp ⟨500, Body.json []⟩)).1 = none
    ∧ (_make_api_request (GetResult.resp ⟨404, Body.undecodable⟩)).1 = none
    ∧ (_make_api_request (GetResult.resp ⟨200, Body.json [RawRecord.mapping coinBtc]⟩)).1
        = some [RawRecord.mapping coinBtc] :=
  ⟨make_api_request_failures_collapse.2.1 ⟨500, Body.json []⟩ (by decide),
   make_api_request_failures_collapse.2.2.1 ⟨404, Body.undecodable⟩ rfl,
   make_api_request_failures_collapse.2.2.2 ⟨200, Body.json [RawRecord.mapping coinBtc]⟩
     [RawRecord.mapping coinBtc] (by decide) rfl⟩

/-- C6, counterexample: the normalizer performs no type checking: a
`current_price` field holding a string (the wrong type for a price) is
copied into the row verbatim instead of yielding `null`, refuting "a
field that … has the wrong type yields null/absent for that field". -/
theorem wrong_typed_field_not_nulled :
    process_market_data idClock [RawRecord.mapping coinWrongTyped]
      = Except.ok [processOne 0 coinWrongTyped]
    ∧ (processOne 0 coinWrongTyped).current_price = Value.str "not-a-number"
    ∧ Value.str "not-a-number" ≠ Value.null :=
  ⟨rfl, rfl, by decide⟩

/-- C6 (amended): for mapping records the fifteen source fields are
extracted independently, each by its own `dict.get` lookup: a missing
field yields `null` for that field alone, a present field is copied
verbatim whatever its type, and every mapping record yields a row — the
record and the run are never aborted. -/
theorem normalizer_field_independence :
    (∀ (ts : Nat) (fields : List (String × Value)),
        (processOne ts fields).coin_id = dictGet fields "id"
      ∧ (processOne ts fields).symbol = dictGet fields "symbol"
      ∧ (processOne ts fields).name = dictGet fields "name"
      ∧ (processOne ts fields).current_price = dictGet fields "current_price"
      ∧ (processOne ts fields).market_cap = dictGet fields "market_cap"
      ∧ (processOne ts fields).market_cap_rank = dictGet fields "market_cap_rank"
      ∧ (processOne ts fields).total_volume = dictGet fields "total_volume"
      ∧ (processOne ts fields).price_change_24h = dictGet fields "price_change_24h"
      ∧ (processOne ts fields).price_change_percentage_24h
          = dictGet fields "price_change_percentage_24h"
      ∧ (processOne ts fields).market_cap_change_24h
          = dictGet fields "market_cap_change_24h"
      ∧ (processOne ts fields).market_cap_change_percentage_24h
          = dictGet fields "market_cap_change_percentage_24h"
      ∧ (processOne ts fields).circulating_supply = dictGet fields "circulating_supply"
      ∧ (processOne ts fields).total_supply = dictGet fields "total_supply"
      ∧ (processOne ts fields).max_supply = dictGet fields "max_supply"
      ∧ (processOne ts fields).last_updated = dictGet fields "last_updated")
    ∧ (∀ (fields : List (String × Value)) (key : String),
        key ∉ fields.map Prod.fst → dictGet fields key = Value.null)
    ∧ (∀ (clock : Nat → Nat) (fss : List (List (String × Value))),
        process_market_data clock (fss.map RawRecord.mapping)
          = Except.ok (processedRows clock 0 fss)
        ∧ (processedRows clock 0 fss).length = fss.length) := by
  refine ⟨?_, dictGet_not_mem, ?_⟩
  · intro ts fields
    exact ⟨rfl, rfl, rfl, rfl, rfl, rfl, rfl, rfl, rfl, rfl, rfl, rfl, rfl, rfl, rfl⟩
  · intro clock fss
    refine ⟨?_, processedRows_length clock fss 0⟩
    cases fss with
    | nil => rfl
    | cons fs rest =>
        have h := processLoop_mappings clock (fs :: rest) 0 []
        simpa using h

/-- C6, witness: a record lacking the `market_cap` key yields `null` for
that field. -/
theorem normalizer_field_independence_witness :
    dictGet coinBtc "market_cap" = Value.null :=
  normalizer_field_independence.2.1 coinBtc "market_cap" (by decide)

/-- C7: saving an empty row set returns the nothing-to-write result `""`
immediately at line 127, before the filename computation and both
filesystem calls: no directory creation and no file write happen,
whatever the write environment would have done. -/
theorem save_to_csv_empty_no_write :
    ∀ (ts : String) (w : WriteBehavior), save_to_csv [] ts w = ("", []) := by
  intro ts w
  rfl

/-- C8: no exception escapes the process boundary: any exception leaving
a stage inside `fetch_and_save_data`'s `try` is converted by the
catch-all at line 175 into the plain return value `False`, and an
initialization failure inside `main`'s `try` is converted by the handler
at line 191 into a printed diagnostic with normal termination. -/
theorem no_uncaught_exception :
    (∀ (b : RunBehavior) (e : PyExc), fetch_and_save_body b = Except.error e →
        fetch_and_save_data b = ⟨false, some FailStage.unexpected, []⟩)
    ∧ (∀ (i : InitOutcome) (e : PyExc), main_body i = Except.error e →
        main i = ("Error initializing crypto data fetcher", 0)) := by
  constructor
  · intro b e h
    unfold fetch_and_save_data
    rw [h]
  · intro i e h
    unfold main
    rw [h]

/-- C8, witness: a run whose raw data contains a non-mapping record makes
normalization raise, and the orchestrator still returns `False`; a
missing configuration file makes initialization raise, and `main` still
prints the diagnostic. -/
theorem no_uncaught_exception_witness :
    fetch_and_save_data ⟨GetResult.resp ⟨200, Body.json [RawRecord.nonMapping]⟩, idClock,
        "20260101_000000", WriteBehavior.ok⟩
      = ⟨false, some FailStage.unexpected, []⟩
    ∧ main (InitOutcome.fails PyExc.fileNotFound)
      = ("Error initializing crypto data fetcher", 0) :=
  ⟨no_uncaught_exception.1 _ PyExc.attributeError rfl,
   no_uncaught_exception.2 _ PyExc.fileNotFound rfl⟩

/-- C9: both failure cases of `save_to_csv` — empty input (line 129) and
a caught I/O failure during directory creation or the write (line 147) —
return the identical value `""`, so the caller cannot tell them apart
from the result; and any run whose write environment fails ends with the
orchestrator returning `False`, since the empty-string path is treated
uniformly as run failure at line 168. -/
theorem save_failure_results_uniform :
    (∀ (ts : String) (w : WriteBehavior), (save_to_csv [] ts w).1 = "")
    ∧ (∀ (df : List NormalizedRow) (ts : String),
        (save_to_csv df ts WriteBehavior.makedirsFails).1 = ""
      ∧ (save_to_csv df ts WriteBehavior.toCsvFails).1 = "")
    ∧ (∀ b : RunBehavior, b.write ≠ WriteBehavior.ok →
        (fetch_and_save_data b).success = false) := by
  refine ⟨fun ts w => rfl, ?_, ?_⟩
  · intro df ts
    exact ⟨save_to_csv_notOk df ts WriteBehavior.makedirsFails (by decide),
           save_to_csv_notOk df ts WriteBehavior.toCsvFails (by decide)⟩
  · intro b hw
    unfold fetch_and_save_data fetch_and_save_body
    cases hg : (fetch_market_data b.get).1 with
    | none => rfl
    | some raw =>
        cases hr : raw.isEmpty with
        | true => simp [hr]
        | false =>
            simp only [hr]
            cases hp : process_market_data b.clock raw with
            | error e => rfl
            | ok df =>
                cases hd : df.isEmpty with
                | true => simp [hd]
                | false =>
                    have hs := save_to_csv_notOk df b.saveTs b.write hw
                    simp [hd, hs]

/-- C9, witness: a run that reaches the persist stage with a failing
write returns `False`. -/
theorem save_failure_results_uniform_witness :
    (fetch_and_save_data ⟨GetResult.resp ⟨200, Body.json [RawRecord.mapping coinBtc]⟩,
        idClock, "20260101_000000", WriteBehavior.toCsvFails⟩).success = false :=
  save_failure_results_uniform.2.2 _ (by decide)

/-- C10: `main` always terminates normally with process exit status 0:
it never re-raises and never calls `sys.exit`, so for every run outcome
and every initialization outcome it prints a non-empty status line and
the interpreter exits with status 0 — the exit status carries no
success/failure information. -/
theorem main_always_exits_zero :
    ∀ i : InitOutcome, (main i).2 = 0 ∧ (main i).1 ≠ "" := by
  intro i
  cases i with
  | ok b =>
      cases hs : (fetch_and_save_data b).success <;>
        exact ⟨by simp [main, main_body, hs], by simp [main, main_body, hs]⟩
  | fails e => exact ⟨rfl, by simp [main, main_body]⟩

end CryptoFetch
